import Mathlib

/-!
# Verification of the json-schema validator stub

Shallow embedding of `src/validator.rs` (the more complete revision of
`generate_validator`) from the `json-schema` repository, together with the
serde_json value model it operates on, and theorems settling the frozen
claims about its behavior.

Modelling conventions:
* serde_json `Value` is the inductive `JsonSchema.Value`; objects are
  insertion-ordered association lists with unique keys (the `preserve_order`
  map), and `Value.wf` records the unique-keys invariant that serde maps
  guarantee by construction.
* serde_json `Number` is `JsonSchema.Number`: an unsigned 64-bit integer
  shape, a negative 64-bit integer shape, or a finite double.  A finite
  double is carried as the exact rational it denotes; `Number.as_f64`
  models Rust's lossy `u64 -> f64` / `i64 -> f64` conversion by
  round-to-nearest-even onto the 53-bit significand grid.
* Rust equality `Value == Value` is `Value.beq` (deep, order-sensitive for
  arrays, order-insensitive for object keys, shape-sensitive for numbers,
  exactly as serde_json's `PartialEq` behaves).
* `generate_validator` returns a `GenResult`: `ok` for `Ok`, `err` for the
  returned `Err(schema)`, and `panicked` for a failed `assert!` /
  `assert_matches!`.
-/

namespace JsonSchema

/-- Number of binary digits of `n`, with fuel bounded by 64 bits; total and
structurally recursive so that it reduces inside the kernel.  For every
`n < 2 ^ 64` (the u64 range of serde_json integers) `bitsAux 64 n` is the
exact bit length. -/
def bitsAux : Nat → Nat → Nat
  | 0, _ => 0
  | fuel + 1, n => if n = 0 then 0 else bitsAux fuel (n / 2) + 1

/-- Bit length of a u64-range natural number. -/
def bits (n : Nat) : Nat := bitsAux 64 n

/-- Round-to-nearest-even conversion of a natural number onto the IEEE-754
double grid (53-bit significand), returning the exact value of the resulting
double as a natural number.  Models Rust's `n as f64` for `n : u64`. -/
def roundNatToF64 (n : Nat) : Nat :=
  if n < 2 ^ 53 then n
  else
    let k := bits n - 53
    let u := 2 ^ k
    let q := n / u
    let r := n % u
    if 2 * r < u then q * u
    else if u < 2 * r then (q + 1) * u
    else if q % 2 = 0 then q * u else (q + 1) * u

/-- serde_json's `Number`: a tagged union over an unsigned-integer shape
(`PosInt`, a u64), a negative-integer shape (`NegInt`, a negative i64), and a
float shape (`Float`, a finite f64 carried as the exact rational value it
denotes). -/
inductive Number where
  | posInt (n : Nat)
  | negInt (i : Int)
  | float (q : Rat)

/-- serde_json's `PartialEq` on `Number`: equal only when the shapes agree and
the payloads are equal (so the integer-shaped `1` and the float-shaped `1.0`
are NOT equal). -/
def Number.beq : Number → Number → Bool
  | .posInt a, .posInt b => a == b
  | .negInt a, .negInt b => a == b
  | .float a, .float b => a == b
  | _, _ => false

/-- serde_json's `Number::as_f64`: the float shape is returned as is, integer
shapes are converted with Rust's lossy `as f64` cast (round to nearest even).
Without the `arbitrary_precision` feature this never returns `None`. -/
def Number.as_f64 : Number → Option Rat
  | .posInt n => some ((roundNatToF64 n : Nat) : Rat)
  | .negInt i => some (-((roundNatToF64 i.natAbs : Nat) : Rat))
  | .float q => some q

/-- The exact mathematical value a JSON number denotes (specification-side
notion used to state precision claims; not part of the Rust code). -/
def Number.exactVal : Number → Rat
  | .posInt n => (n : Rat)
  | .negInt i => (i : Rat)
  | .float q => q

/-- serde_json's `Value`: Null, Bool, Number, String, Array, Object.  Objects
are insertion-ordered association lists of key/value pairs. -/
inductive Value where
  | null
  | bool (b : Bool)
  | number (n : Number)
  | str (s : String)
  | arr (items : List Value)
  | obj (entries : List (String × Value))

/-- Key lookup in an object's entry list; with unique keys this is exactly
serde_json's `Map::get`. -/
def lookup (key : String) : List (String × Value) → Option Value
  | [] => none
  | (k, v) :: rest => if k = key then some v else lookup key rest

mutual

/-- serde_json's `PartialEq` on `Value`: deep structural equality,
order-sensitive for arrays, order-insensitive for object keys (same length
and every key of the left map present in the right with an equal value),
shape-sensitive for numbers. -/
def Value.beq : Value → Value → Bool
  | .null, .null => true
  | .bool a, .bool b => a == b
  | .number a, .number b => Number.beq a b
  | .str a, .str b => a == b
  | .arr a, .arr b => Value.beqL a b
  | .obj a, .obj b => (a.length == b.length) && Value.beqO a b
  | _, _ => false
termination_by v _ => sizeOf v

/-- Element-wise equality of JSON arrays. -/
def Value.beqL : List Value → List Value → Bool
  | [], [] => true
  | x :: xs, y :: ys => Value.beq x y && Value.beqL xs ys
  | _, _ => false
termination_by l _ => sizeOf l

/-- Every entry of the left object is present in the right object with an
equal value. -/
def Value.beqO : List (String × Value) → List (String × Value) → Bool
  | [], _ => true
  | (k, v) :: rest, b =>
    (match lookup k b with
     | some w => Value.beq v w
     | none => false) && Value.beqO rest b
termination_by a _ => sizeOf a

end

/-- Keys of an object's entry list are pairwise distinct. -/
def keysUnique : List (String × Value) → Bool
  | [] => true
  | (k, _) :: rest => (lookup k rest).isNone && keysUnique rest

mutual

/-- Well-formedness of a serde_json value: every object in it has unique
keys.  serde_json maps guarantee this by construction. -/
def Value.wf : Value → Bool
  | .null => true
  | .bool _ => true
  | .number _ => true
  | .str _ => true
  | .arr items => Value.wfL items
  | .obj entries => keysUnique entries && Value.wfO entries
termination_by v => sizeOf v

/-- All values of a list are well-formed. -/
def Value.wfL : List Value → Bool
  | [] => true
  | x :: xs => Value.wf x && Value.wfL xs
termination_by l => sizeOf l

/-- All values of an object's entries are well-formed. -/
def Value.wfO : List (String × Value) → Bool
  | [] => true
  | (_, v) :: rest => Value.wf v && Value.wfO rest
termination_by a => sizeOf a

end

/-- Shape test: is the value a JSON number? -/
def Value.isNumber : Value → Bool
  | .number _ => true
  | _ => false

/-- Shape test: is the value a JSON object? -/
def Value.isObject : Value → Bool
  | .obj _ => true
  | _ => false

/-- Shape test: is the value a JSON boolean? -/
def Value.isBool : Value → Bool
  | .bool _ => true
  | _ => false

/-- The compiled validator nodes of `src/validator.rs`: `TrueValidator`,
`FalseValidator`, `ConstValidator`, `EnumValidator` (a list of child
validators), `MinimumValidator`. -/
inductive Validator where
  | trueV
  | falseV
  | constV (value : Value)
  | enumV (validators : List Validator)
  | minimumV (value : Number)

mutual

/-- The `Validator::validate` methods of `src/validator.rs`:
`TrueValidator` accepts everything, `FalseValidator` rejects everything,
`ConstValidator` tests serde_json equality against the stored value,
`EnumValidator` passes iff any child passes, `MinimumValidator` compares the
stored bound and a number instance through `as_f64` and accepts every
non-number instance. -/
def Validator.validate : Validator → Value → Bool
  | .trueV, _ => true
  | .falseV, _ => false
  | .constV c, v => Value.beq c v
  | .enumV vs, v => Validator.validateAny vs v
  | .minimumV b, v =>
    match v with
    | .number num =>
      match Number.as_f64 b, Number.as_f64 num with
      | some n1, some n2 => decide (n1 ≤ n2)
      | _, _ => false
    | _ => true
termination_by w _ => sizeOf w

/-- `EnumValidator`'s `self.validators.iter().any(|v| v.validate(value))`. -/
def Validator.validateAny : List Validator → Value → Bool
  | [], _ => false
  | w :: ws, v => Validator.validate w v || Validator.validateAny ws v
termination_by l _ => sizeOf l

end

/-- Outcome of `generate_validator`: `Ok(validator)`, the returned
`Err(schema)`, or a panic raised by `assert!` / `assert_matches!`. -/
inductive GenResult where
  | ok (v : Validator)
  | err (s : Value)
  | panicked

/-- `generate_validator` of `src/validator.rs`:
dispatches on the schema.  For an object it checks, in order, the keywords
`const` (asserting the object has exactly one key), `enum` (asserting one key
and an array value, compiling each member to a `ConstValidator` inside an
`EnumValidator`), `minimum` (asserting one key and a number value), `type`
(asserting a string value, then returning `Err(schema)`); when no recognized
keyword is present it returns a `ConstValidator` holding the whole schema.
Boolean schemas compile to `TrueValidator` / `FalseValidator`; every other
schema shape is returned as `Err(schema)`. -/
def generate_validator (schema : Value) : GenResult :=
  match schema with
  | .obj entries =>
    match lookup "const" entries with
    | some val =>
      if entries.length = 1 then .ok (.constV val) else .panicked
    | none =>
      match lookup "enum" entries with
      | some val =>
        if entries.length = 1 then
          match val with
          | .arr items => .ok (.enumV (items.map Validator.constV))
          | _ => .panicked
        else .panicked
      | none =>
        match lookup "minimum" entries with
        | some val =>
          if entries.length = 1 then
            match val with
            | .number num => .ok (.minimumV num)
            | _ => .panicked
          else .panicked
        | none =>
          match lookup "type" entries with
          | some val =>
            match val with
            | .str _ => .err schema
            | _ => .panicked
          | none => .ok (.constV schema)
  | .bool b => if b then .ok .trueV else .ok .falseV
  | _ => .err schema

/-! ## Helper lemmas about lookup and structural equality -/

/-- Membership of an entry makes lookup of its key succeed. -/
theorem lookup_isSome_of_mem (p : String × Value) (l : List (String × Value))
    (h : p ∈ l) : (lookup p.1 l).isSome = true := by
  induction l with
  | nil => cases h
  | cons hd tl ih =>
    obtain ⟨k, v⟩ := hd
    by_cases hk : k = p.1
    · simp [lookup, hk]
    · rcases List.mem_cons.mp h with h1 | h1
      · subst h1; exact absurd rfl hk
      · simp [lookup, hk, ih h1]

/-- With unique keys, looking up the key of a member entry returns exactly
that entry's value. -/
theorem lookup_self_of_keysUnique (p : String × Value) (l : List (String × Value))
    (hu : keysUnique l = true) (h : p ∈ l) : lookup p.1 l = some p.2 := by
  induction l with
  | nil => cases h
  | cons hd tl ih =>
    obtain ⟨k, v⟩ := hd
    have hu2 : (lookup k tl).isNone = true ∧ keysUnique tl = true := by
      simpa [keysUnique] using hu
    rcases List.mem_cons.mp h with h1 | h1
    · subst h1; simp [lookup]
    · by_cases hk : k = p.1
      · exfalso
        have h2 := lookup_isSome_of_mem p tl h1
        rw [← hk] at h2
        rw [Option.isNone_iff_eq_none] at hu2
        rw [hu2.1] at h2
        simp at h2
      · simp [lookup, hk, ih hu2.2 h1]

mutual

/-- serde_json equality is reflexive on well-formed values. -/
theorem Value.beq_refl : ∀ (v : Value), Value.wf v = true → Value.beq v v = true
  | .null, _ => by simp [Value.beq]
  | .bool b, _ => by simp [Value.beq]
  | .number n, _ => by cases n <;> simp [Value.beq, Number.beq]
  | .str s, _ => by simp [Value.beq]
  | .arr items, h => by
    have hl := Value.beqL_refl items (by simpa [Value.wf] using h)
    simp [Value.beq, hl]
  | .obj entries, h => by
    have h2 : keysUnique entries = true ∧ Value.wfO entries = true := by
      simpa [Value.wf] using h
    have h3 := Value.beqO_sub entries entries h2.2
      (fun p hp => lookup_self_of_keysUnique p entries h2.1 hp)
    simp [Value.beq, h3]
termination_by v => sizeOf v

/-- Element-wise equality is reflexive on well-formed lists. -/
theorem Value.beqL_refl : ∀ (l : List Value), Value.wfL l = true → Value.beqL l l = true
  | [], _ => by simp [Value.beqL]
  | x :: xs, h => by
    have hx : Value.wf x = true ∧ Value.wfL xs = true := by simpa [Value.wfL] using h
    simp [Value.beqL, Value.beq_refl x hx.1, Value.beqL_refl xs hx.2]
termination_by l => sizeOf l

/-- Every well-formed entry list whose keys all look up to their own values
in `b` is `beqO`-included in `b`. -/
theorem Value.beqO_sub : ∀ (a b : List (String × Value)), Value.wfO a = true →
    (∀ p ∈ a, lookup p.1 b = some p.2) → Value.beqO a b = true
  | [], _, _, _ => by simp [Value.beqO]
  | (k, v) :: rest, b, hwf, hlk => by
    have hw : Value.wf v = true ∧ Value.wfO rest = true := by simpa [Value.wfO] using hwf
    have h1 : lookup k b = some v := hlk (k, v) (by simp)
    have h2 : Value.beq v v = true := Value.beq_refl v hw.1
    have h3 : Value.beqO rest b = true :=
      Value.beqO_sub rest b hw.2 (fun p hp => hlk p (by simp [hp]))
    simp [Value.beqO, h1, h2, h3]
termination_by a _ _ _ => sizeOf a

end

/-! ## Claim theorems -/

/-- C1: the claim says a schema object with no recognized keyword (here the
empty object) compiles to an Accept-All validator.  The code instead falls
through to `ConstValidator {value: schema.clone()}`: the empty schema
compiles to a deep-equality check against `{}` itself, which rejects the
instance `1` that an Accept-All validator would accept. -/
theorem empty_schema_compiles_to_self_const :
    generate_validator (Value.obj []) = GenResult.ok (Validator.constV (Value.obj [])) ∧
    Validator.validate (Validator.constV (Value.obj [])) (Value.number (Number.posInt 1)) = false := by
  refine ⟨rfl, ?_⟩
  simp [Validator.validate, Value.beq]

/-- C2: the claim says a schema carrying both `const` and `minimum`
compiles successfully to the conjunction of both keyword validators.  The
code instead hits `assert!(obj.len() == 1)` in the `const` branch and
panics. -/
theorem multiple_keywords_panic :
    generate_validator (Value.obj [("const", Value.number (Number.posInt 1)),
      ("minimum", Value.number (Number.posInt 0))]) = GenResult.panicked := rfl

/-- C3: the claim says const equality is representation-independent for
numbers, so `{"const": 1}` accepts the float-shaped `1.0`.  The code uses
serde_json `PartialEq`, which distinguishes the integer shape `1` from the
float shape `1.0`, so the compiled validator rejects `1.0`. -/
theorem const_distinguishes_int_and_float :
    generate_validator (Value.obj [("const", Value.number (Number.posInt 1))]) =
      GenResult.ok (Validator.constV (Value.number (Number.posInt 1))) ∧
    Validator.validate (Validator.constV (Value.number (Number.posInt 1)))
      (Value.number (Number.float 1)) = false := by
  refine ⟨rfl, ?_⟩
  simp [Validator.validate, Value.beq, Number.beq]

/-- C4: the claim says `{"minimum": b}` compares exactly, without precision
loss through a narrower float type.  The code compares through `as_f64`:
with bound 2^53 + 1 = 9007199254740993 and instance 2^53 = 9007199254740992
both round to the same double, so the validator accepts the instance even
though its exact value is strictly below the bound. -/
theorem minimum_loses_precision_through_f64 :
    generate_validator (Value.obj [("minimum", Value.number (Number.posInt 9007199254740993))]) =
      GenResult.ok (Validator.minimumV (Number.posInt 9007199254740993)) ∧
    Validator.validate (Validator.minimumV (Number.posInt 9007199254740993))
      (Value.number (Number.posInt 9007199254740992)) = true ∧
    Number.exactVal (Number.posInt 9007199254740992) <
      Number.exactVal (Number.posInt 9007199254740993) := by
  refine ⟨rfl, ?_, by norm_num [Number.exactVal]⟩
  simp [Validator.validate, Number.as_f64]
  norm_num [roundNatToF64, bits, bitsAux]

/-- C5: the claim says compiling `{"enum": []}` is a compile error.  The
code instead succeeds, producing an `EnumValidator` with no children, which
silently rejects every instance. -/
theorem empty_enum_compiles_to_reject_all :
    generate_validator (Value.obj [("enum", Value.arr [])]) = GenResult.ok (Validator.enumV []) ∧
    ∀ v : Value, Validator.validate (Validator.enumV []) v = false := by
  refine ⟨rfl, ?_⟩
  intro v
  simp [Validator.validate, Validator.validateAny]

/-- C6: the claim says `generate_validator` never panics and returns a
compile error for a keyword value of the wrong JSON type.  The code panics:
`{"enum": 5}` trips `assert_matches!(val, Value::Array(_))` and
`{"type": 5}` trips `assert_matches!(val, Value::String(_))`. -/
theorem wrong_keyword_type_panics :
    generate_validator (Value.obj [("enum", Value.number (Number.posInt 5))]) =
      GenResult.panicked ∧
    generate_validator (Value.obj [("type", Value.number (Number.posInt 5))]) =
      GenResult.panicked := ⟨rfl, rfl⟩

/-- C7: the boolean schema `true` compiles to `TrueValidator`, which accepts
every instance, and `false` compiles to `FalseValidator`, which rejects
every instance, Null included. -/
theorem boolean_schemas_accept_reject_all :
    generate_validator (Value.bool true) = GenResult.ok Validator.trueV ∧
    generate_validator (Value.bool false) = GenResult.ok Validator.falseV ∧
    (∀ v : Value, Validator.validate Validator.trueV v = true) ∧
    (∀ v : Value, Validator.validate Validator.falseV v = false) := by
  refine ⟨rfl, rfl, ?_, ?_⟩ <;> intro v <;> simp [Validator.validate]

/-- C8: const round-trip.  For every well-formed value `v` (unique object
keys, as serde_json maps guarantee by construction), compiling
`{"const": v}` succeeds with a `ConstValidator`, validating `v` itself
passes, and validating any value not structurally equal to `v` (deep,
order-sensitive for arrays, order-insensitive for object keys) fails. -/
theorem const_roundtrip (v : Value) (h : Value.wf v = true) :
    generate_validator (Value.obj [("const", v)]) = GenResult.ok (Validator.constV v) ∧
    Validator.validate (Validator.constV v) v = true ∧
    ∀ w : Value, Value.beq v w = false → Validator.validate (Validator.constV v) w = false := by
  refine ⟨rfl, ?_, ?_⟩
  · simpa [Validator.validate] using Value.beq_refl v h
  · intro w hw
    simpa [Validator.validate] using hw

/-- Witness for C8 at the concrete value `{"a": [1, "x"], "b": null}`. -/
theorem const_roundtrip_witness :
    Value.wf (Value.obj [("a", Value.arr [Value.number (Number.posInt 1), Value.str "x"]),
      ("b", Value.null)]) = true ∧
    (generate_validator (Value.obj [("const",
        Value.obj [("a", Value.arr [Value.number (Number.posInt 1), Value.str "x"]),
          ("b", Value.null)])]) =
      GenResult.ok (Validator.constV
        (Value.obj [("a", Value.arr [Value.number (Number.posInt 1), Value.str "x"]),
          ("b", Value.null)])) ∧
    Validator.validate (Validator.constV
        (Value.obj [("a", Value.arr [Value.number (Number.posInt 1), Value.str "x"]),
          ("b", Value.null)]))
      (Value.obj [("a", Value.arr [Value.number (Number.posInt 1), Value.str "x"]),
        ("b", Value.null)]) = true ∧
    ∀ w : Value, Value.beq (Value.obj [("a", Value.arr [Value.number (Number.posInt 1),
        Value.str "x"]), ("b", Value.null)]) w = false →
      Validator.validate (Validator.constV
        (Value.obj [("a", Value.arr [Value.number (Number.posInt 1), Value.str "x"]),
          ("b", Value.null)])) w = false) :=
  have h : Value.wf (Value.obj [("a", Value.arr [Value.number (Number.posInt 1),
      Value.str "x"]), ("b", Value.null)]) = true := by
    simp [Value.wf, Value.wfL, Value.wfO, keysUnique, lookup]
  ⟨h, const_roundtrip _ h⟩

/-- C9: a `MinimumValidator` is inapplicable to non-number instances and
passes them by default: compiling `{"minimum": b}` succeeds for any numeric
`b`, and the resulting validator accepts every instance that is not a JSON
number. -/
theorem minimum_passes_non_numbers (b : Number) (v : Value)
    (h : Value.isNumber v = false) :
    generate_validator (Value.obj [("minimum", Value.number b)]) =
      GenResult.ok (Validator.minimumV b) ∧
    Validator.validate (Validator.minimumV b) v = true := by
  refine ⟨rfl, ?_⟩
  cases v <;> simp_all [Validator.validate, Value.isNumber]

/-- Witness for C9: `{"minimum": 0}` accepts the string `"hello"`. -/
theorem minimum_passes_non_numbers_witness :
    Value.isNumber (Value.str "hello") = false ∧
    (generate_validator (Value.obj [("minimum", Value.number (Number.posInt 0))]) =
      GenResult.ok (Validator.minimumV (Number.posInt 0)) ∧
    Validator.validate (Validator.minimumV (Number.posInt 0)) (Value.str "hello") = true) :=
  ⟨rfl, minimum_passes_non_numbers (Number.posInt 0) (Value.str "hello") rfl⟩

/-- C10: a schema that is neither an object nor a boolean (null, number,
string, or array) makes `generate_validator` return `Err(schema)`, carrying
the schema value itself — no validator, no panic. -/
theorem non_object_non_bool_schema_is_err (s : Value)
    (h1 : Value.isObject s = false) (h2 : Value.isBool s = false) :
    generate_validator s = GenResult.err s := by
  cases s <;> simp_all [Value.isObject, Value.isBool, generate_validator]

/-- Witness for C10 at the concrete schema `null`. -/
theorem non_object_non_bool_schema_is_err_witness :
    Value.isObject Value.null = false ∧ Value.isBool Value.null = false ∧
    generate_validator Value.null = GenResult.err Value.null :=
  ⟨rfl, rfl, non_object_non_bool_schema_is_err Value.null rfl rfl⟩

end JsonSchema
